import Mathlib

/-!
Verification of the startup orchestrator of the boost-relay `api` command
(`cmd/api.go`).  The command resolves flags, picks a genesis fork version,
checks the beacon client's sync status, connects to Redis, decodes and
validates the BLS secret key, builds the `RelayAPIOpts` value, constructs the
relay service and starts its blocking serve loop.  Every failure goes through
a fatal log call that terminates the process.

The embedding below mirrors the statement sequence of `apiCmd.Run`.  External
collaborators (beacon client, Redis, BLS library, service constructor, serve
loop) are black boxes: their results are supplied by a `World` oracle value,
and each call made to one of them is recorded in an event trace, in call
order.  `hexutil.Decode` (go-ethereum) is pure and is modelled directly.
-/

/-- Genesis fork version constant for Mainnet (`common.GenesisForkVersionMainnet`);
the value `0x00000000` is documented in the `--mainnet` flag help text in `cmd/api.go`. -/
def GenesisForkVersionMainnet : String := "0x00000000"

/-- Genesis fork version constant for Kiln (`common.GenesisForkVersionKiln`);
the value `0x70000069` is documented in the `--kiln` flag help text. -/
def GenesisForkVersionKiln : String := "0x70000069"

/-- Genesis fork version constant for Ropsten (`common.GenesisForkVersionRopsten`);
the value `0x80000069` is documented in the `--ropsten` flag help text. -/
def GenesisForkVersionRopsten : String := "0x80000069"

/-- Genesis fork version constant for Sepolia (`common.GenesisForkVersionSepolia`);
the value `0x90000069` is documented in the `--sepolia` flag help text. -/
def GenesisForkVersionSepolia : String := "0x90000069"

/-- The resolved values of the package-level flag variables of `cmd/api.go`
at the time `apiCmd.Run` executes.  The `useCustomGenesisForkVersion` value
defaults to the `GENESIS_FORK_VERSION` environment variable, so it may be
non-empty even when the `--genesis-fork-version` flag was never given on the
command line (cobra's mutual-exclusion check only fires for flags explicitly
changed on the command line). -/
structure Flags where
  listenAddr : String
  beaconNodeURI : String
  redisURI : String
  logJSON : Bool
  logLevel : String
  useGenesisForkVersionMainnet : Bool
  useGenesisForkVersionKiln : Bool
  useGenesisForkVersionRopsten : Bool
  useGenesisForkVersionSepolia : Bool
  useCustomGenesisForkVersion : String
  apiPprof : Bool
  secretKey : String
  getHeaderWaitTimeMs : Int
  deriving Repr, DecidableEq

/-- The genesis-fork-version resolution block of `apiCmd.Run` (the
`if useCustomGenesisForkVersion != "" ... else if ... else log.Fatal` chain).
`none` is the `log.Fatal` branch: no source active. -/
def setGenesisForkVersion (f : Flags) : Option String :=
  if f.useCustomGenesisForkVersion ≠ "" then some f.useCustomGenesisForkVersion
  else if f.useGenesisForkVersionMainnet then some GenesisForkVersionMainnet
  else if f.useGenesisForkVersionKiln then some GenesisForkVersionKiln
  else if f.useGenesisForkVersionRopsten then some GenesisForkVersionRopsten
  else if f.useGenesisForkVersionSepolia then some GenesisForkVersionSepolia
  else none

/-- Number of network-identity sources active in a resolved flag state: the
custom override (when non-empty) plus each named-network boolean that is set. -/
def activeIdentitySources (f : Flags) : Nat :=
  (if f.useCustomGenesisForkVersion ≠ "" then 1 else 0)
  + (if f.useGenesisForkVersionMainnet then 1 else 0)
  + (if f.useGenesisForkVersionKiln then 1 else 0)
  + (if f.useGenesisForkVersionRopsten then 1 else 0)
  + (if f.useGenesisForkVersionSepolia then 1 else 0)

/-! ### Model of `hexutil.Decode` (go-ethereum)

`hexutil.Decode` rejects the empty string, requires a `0x` mark, then decodes
hex pairs left to right (`encoding/hex.Decode`): the first non-hex byte is an
invalid-byte error, and an odd-length remainder whose last byte is a valid
digit is a length error. -/

/-- Error string of `hexutil.ErrEmptyString`. -/
def errEmptyString : String := "empty hex string"

/-- Error string of `hexutil.ErrMissingPrefix` (input lacks the 0x mark). -/
def errMissing0x : String := "hex string without 0x prefix"

/-- Error string of `hexutil.ErrOddLength`. -/
def errOddLength : String := "hex string of odd length"

/-- Error string of `hexutil.ErrSyntax` (a byte that is not a hex digit). -/
def errInvalidHexByte : String := "invalid hex string"

/-- Value of one hex digit character, `none` for a non-digit
(`encoding/hex.fromHexChar`). -/
def hexVal (c : Char) : Option Nat :=
  if '0' ≤ c ∧ c ≤ '9' then some (c.toNat - 48)
  else if 'a' ≤ c ∧ c ≤ 'f' then some (c.toNat - 87)
  else if 'A' ≤ c ∧ c ≤ 'F' then some (c.toNat - 55)
  else none

/-- Pair-wise hex decoding of `encoding/hex.Decode`, with the error the go
library reports mapped to the `hexutil` error strings. -/
def decodeHexChars : List Char → Except String (List Nat)
  | [] => Except.ok []
  | [c] => if (hexVal c).isSome then Except.error errOddLength else Except.error errInvalidHexByte
  | c1 :: c2 :: rest =>
    match hexVal c1 with
    | none => Except.error errInvalidHexByte
    | some a =>
      match hexVal c2 with
      | none => Except.error errInvalidHexByte
      | some b =>
        match decodeHexChars rest with
        | Except.error e => Except.error e
        | Except.ok tl => Except.ok ((16 * a + b) :: tl)

/-- The `has0xPrefix` check of `hexutil`: at least two characters, the first
`0`, the second `x` or `X`. -/
def has0xMark : List Char → Bool
  | c0 :: c1 :: _ => c0 = '0' && (c1 = 'x' || c1 = 'X')
  | _ => false

/-- Model of `hexutil.Decode`: hex string with 0x mark to bytes (bytes as `Nat < 256`). -/
def hexutilDecode (input : String) : Except String (List Nat) :=
  if input.data.isEmpty then Except.error errEmptyString
  else if ¬ has0xMark input.data then Except.error errMissing0x
  else decodeHexChars (input.data.drop 2)

/-! ### The run itself -/

deriving instance DecidableEq for Except

/-- One call to an external collaborator, in the order `apiCmd.Run` makes
them.  `beaconSyncStatus` and `redisConnect` are the two calls that perform
network I-O during startup; `blsSecretKeyFromBytes` is the BLS library
validity check; `newRelayAPI` is the service construction attempt;
`startServer` is the blocking serve call. -/
inductive Event where
  | beaconSyncStatus
  | redisConnect
  | blsSecretKeyFromBytes
  | newRelayAPI
  | startServer
  deriving Repr, DecidableEq

/-- Behaviour of the blocking `srv.StartServer()` call: it either never
returns (the process keeps serving) or returns with an optional error
(`none` models a nil error value). -/
inductive ServeBehavior where
  | blocksForever
  | returns (err : Option String)
  deriving Repr, DecidableEq

/-- Results of the external calls `apiCmd.Run` can make, supplied as an
oracle.  Each field is consulted only if the corresponding call happens. -/
structure World where
  syncStatusResult : Except String Unit
  redisResult : Except String Unit
  blsKeyResult : Except String Unit
  newRelayAPIResult : Except String Unit
  startServerBehavior : ServeBehavior
  deriving Repr, DecidableEq

/-- The scalar fields of `api.RelayAPIOpts` that `apiCmd.Run` computes
(the handle fields `Log`, `BeaconClient`, `Datastore`, `SecretKey` carry the
collaborator objects and are not data).  `GetHeaderWaitTime` is a
`time.Duration`, an `int64` count of nanoseconds. -/
structure RelayAPIOpts where
  ListenAddr : String
  GenesisForkVersionHex : String
  PprofAPI : Bool
  GetHeaderWaitTime : Int
  deriving Repr, DecidableEq

/-- Signed 64-bit wrap-around, the behaviour of go `int64` arithmetic. -/
def int64Wrap (n : Int) : Int := (n + 2 ^ 63) % 2 ^ 64 - 2 ^ 63

/-- Value of `time.Millisecond` in nanoseconds. -/
def timeMillisecond : Int := 1000000

/-- The product `time.Duration(getHeaderWaitTimeMs) * time.Millisecond`: an
`int64` product, wrapping on overflow. -/
def goDurationMsToNs (ms : Int) : Int := int64Wrap (ms * timeMillisecond)

/-- How a run of `apiCmd.Run` ends: still blocked inside `srv.StartServer()`
(`serving`), or the process exited through a fatal log call carrying the
given message. -/
inductive Outcome where
  | serving
  | fatalExit (msg : String)
  deriving Repr, DecidableEq

/-- Message of the fatal exit when no genesis fork version is selected. -/
def fatalNoGenesisForkVersion : String :=
  "Please specify a genesis fork version (eg. -mainnet or -kiln or -ropsten or -genesis-fork-version flags)"

/-- Message logged by `log.Fatal(srv.StartServer())`: the returned error, or
the rendering of a nil error. -/
def serveExitMsg : Option String → String
  | some e => e
  | none => "<nil>"

/-- Result of one execution of `apiCmd.Run`: the external calls made in
order, the resolved genesis fork version (when resolution succeeded), the
`RelayAPIOpts` value built (when the run got that far), and the outcome. -/
structure RunResult where
  trace : List Event
  resolvedIdentity : Option String
  optsBuilt : Option RelayAPIOpts
  outcome : Outcome
  deriving Repr, DecidableEq

/-- The body of `apiCmd.Run`, statement by statement: resolve the genesis
fork version (fatal when none), query the beacon client sync status (fatal on
error), connect to Redis (fatal on error), decode the secret-key hex (fatal
on error), build the BLS secret key from the bytes (fatal on error), build
`RelayAPIOpts`, construct the service (fatal on error), then start the
blocking serve loop, whose return value is passed to a fatal log call. -/
def runAPI (f : Flags) (w : World) : RunResult :=
  match setGenesisForkVersion f with
  | none =>
    { trace := [], resolvedIdentity := none, optsBuilt := none,
      outcome := Outcome.fatalExit fatalNoGenesisForkVersion }
  | some genesisForkVersionHex =>
    match w.syncStatusResult with
    | Except.error _ =>
      { trace := [Event.beaconSyncStatus], resolvedIdentity := some genesisForkVersionHex,
        optsBuilt := none, outcome := Outcome.fatalExit "Beacon node is syncing" }
    | Except.ok _ =>
      match w.redisResult with
      | Except.error _ =>
        { trace := [Event.beaconSyncStatus, Event.redisConnect],
          resolvedIdentity := some genesisForkVersionHex, optsBuilt := none,
          outcome := Outcome.fatalExit ("Failed to connect to Redis at " ++ f.redisURI) }
      | Except.ok _ =>
        match hexutilDecode f.secretKey with
        | Except.error _ =>
          { trace := [Event.beaconSyncStatus, Event.redisConnect],
            resolvedIdentity := some genesisForkVersionHex, optsBuilt := none,
            outcome := Outcome.fatalExit "incorrect secret key provided" }
        | Except.ok _ =>
          match w.blsKeyResult with
          | Except.error _ =>
            { trace := [Event.beaconSyncStatus, Event.redisConnect,
                Event.blsSecretKeyFromBytes],
              resolvedIdentity := some genesisForkVersionHex, optsBuilt := none,
              outcome := Outcome.fatalExit "incorrect builder API secret key provided" }
          | Except.ok _ =>
            let opts : RelayAPIOpts :=
              { ListenAddr := f.listenAddr,
                GenesisForkVersionHex := genesisForkVersionHex,
                PprofAPI := f.apiPprof,
                GetHeaderWaitTime := goDurationMsToNs f.getHeaderWaitTimeMs }
            match w.newRelayAPIResult with
            | Except.error _ =>
              { trace := [Event.beaconSyncStatus, Event.redisConnect,
                  Event.blsSecretKeyFromBytes, Event.newRelayAPI],
                resolvedIdentity := some genesisForkVersionHex, optsBuilt := some opts,
                outcome := Outcome.fatalExit "failed to create service" }
            | Except.ok _ =>
              { trace := [Event.beaconSyncStatus, Event.redisConnect,
                  Event.blsSecretKeyFromBytes, Event.newRelayAPI, Event.startServer],
                resolvedIdentity := some genesisForkVersionHex, optsBuilt := some opts,
                outcome :=
                  match w.startServerBehavior with
                  | ServeBehavior.blocksForever => Outcome.serving
                  | ServeBehavior.returns r => Outcome.fatalExit (serveExitMsg r) }

/-- A flag state with only `--mainnet` set and a well-formed one-byte secret
key, used as the base point for concrete runs. -/
def mainnetFlags : Flags :=
  { listenAddr := "localhost:9062", beaconNodeURI := "http://localhost:3500",
    redisURI := "localhost:6379", logJSON := false, logLevel := "info",
    useGenesisForkVersionMainnet := true, useGenesisForkVersionKiln := false,
    useGenesisForkVersionRopsten := false, useGenesisForkVersionSepolia := false,
    useCustomGenesisForkVersion := "", apiPprof := false,
    secretKey := "0x01", getHeaderWaitTimeMs := 500 }

/-- A world in which every external call succeeds and the serve loop blocks. -/
def allOkWorld : World :=
  { syncStatusResult := Except.ok (), redisResult := Except.ok (),
    blsKeyResult := Except.ok (), newRelayAPIResult := Except.ok (),
    startServerBehavior := ServeBehavior.blocksForever }

/-! ### Concrete inputs for witnesses and counterexamples -/

/-- Flag state produced by `GENESIS_FORK_VERSION=0x13371337` in the
environment together with `--mainnet` on the command line: both the custom
override and a named network are active after resolution, and cobra's
mutual-exclusion check does not reject it because only one flag was changed
on the command line. -/
def envPlusMainnetFlags : Flags :=
  { mainnetFlags with useCustomGenesisForkVersion := "0x13371337" }

/-- Flag state with no network-identity source at all. -/
def noIdentityFlags : Flags :=
  { mainnetFlags with useGenesisForkVersionMainnet := false }

/-- World whose beacon sync-status query fails. -/
def syncFailWorld : World :=
  { allOkWorld with syncStatusResult := Except.error "still syncing" }

/-- Flag state whose secret key is not hex. -/
def badHexFlags : Flags := { mainnetFlags with secretKey := "not-hex" }

/-- Flag state whose secret key is the empty string (the flag default). -/
def emptyKeyFlags : Flags := { mainnetFlags with secretKey := "" }

/-- World in which the BLS library rejects the decoded key bytes. -/
def blsFailWorld : World :=
  { allOkWorld with blsKeyResult := Except.error "invalid scalar" }

/-- Flag state with a custom override only, and one that is not valid hex. -/
def nonHexOverrideFlags : Flags :=
  { mainnetFlags with
    useGenesisForkVersionMainnet := false
    useCustomGenesisForkVersion := "not-hex!!" }

/-- Flag state whose wait-duration flag overflows the `int64` nanosecond
product: ten trillion milliseconds. -/
def overflowWaitFlags : Flags :=
  { mainnetFlags with getHeaderWaitTimeMs := 10000000000000 }

/-- World in which the serve loop returns a nil error. -/
def serveNilWorld : World :=
  { allOkWorld with startServerBehavior := ServeBehavior.returns none }

/-! ### Sanity checks of the embedding on concrete inputs -/

example : hexutilDecode "0x01" = Except.ok [1] := by decide
example : hexutilDecode "" = Except.error errEmptyString := by decide
example : hexutilDecode "not-hex" = Except.error errMissing0x := by decide
example : hexutilDecode "0x0" = Except.error errOddLength := by decide
example : hexutilDecode "0xzz" = Except.error errInvalidHexByte := by decide
example : (runAPI mainnetFlags allOkWorld).outcome = Outcome.serving := by decide
example : (runAPI mainnetFlags allOkWorld).trace =
    [Event.beaconSyncStatus, Event.redisConnect, Event.blsSecretKeyFromBytes,
     Event.newRelayAPI, Event.startServer] := by decide

/-! ### Helper lemmas -/

/-- Once the genesis fork version resolves, every continuation of the run
records that identity and has contacted the beacon client. -/
lemma runAPI_resolved (f : Flags) (w : World) (g : String)
    (h : setGenesisForkVersion f = some g) :
    (runAPI f w).resolvedIdentity = some g
    ∧ Event.beaconSyncStatus ∈ (runAPI f w).trace := by
  unfold runAPI
  rw [h]
  rcases w.syncStatusResult with e | u
  · simp
  · rcases w.redisResult with e | u2
    · simp
    · rcases hd : hexutilDecode f.secretKey with e | bs
      · simp
      · rcases w.blsKeyResult with e | u3
        · simp
        · rcases w.newRelayAPIResult with e | u4
          · simp
          · simp

/-- Whatever `RelayAPIOpts` value a run builds carries the wait duration
computed by the `int64` product of the flag value with `time.Millisecond`. -/
lemma runAPI_optsBuilt_wait (f : Flags) (w : World) :
    ∀ o : RelayAPIOpts, (runAPI f w).optsBuilt = some o →
      o.GetHeaderWaitTime = goDurationMsToNs f.getHeaderWaitTimeMs := by
  unfold runAPI
  rcases setGenesisForkVersion f with _ | g
  · intro o h
    simp at h
  · rcases w.syncStatusResult with e | u
    · intro o h
      simp at h
    · rcases w.redisResult with e | u2
      · intro o h
        simp at h
      · rcases hexutilDecode f.secretKey with e | bs
        · intro o h
          simp at h
        · rcases w.blsKeyResult with e | u3
          · intro o h
            simp at h
          · rcases w.newRelayAPIResult with e | u4
            · intro o h
              rw [Option.some.injEq] at h
              subst h
              rfl
            · intro o h
              rw [Option.some.injEq] at h
              subst h
              rfl

/-- Signed 64-bit wrap-around is the identity inside the `int64` range. -/
lemma int64Wrap_id (x : Int) (hlo : -(2 ^ 63) ≤ x) (hhi : x < 2 ^ 63) :
    int64Wrap x = x := by
  unfold int64Wrap
  have h0 : (0 : Int) ≤ x + 2 ^ 63 := by omega
  have h1 : x + 2 ^ 63 < 2 ^ 64 := by omega
  rw [Int.emod_eq_of_lt h0 h1]
  omega

/-- When at least one network-identity source is active, resolution finds one. -/
lemma setGenesisForkVersion_isSome_of_active (f : Flags)
    (h : 0 < activeIdentitySources f) : (setGenesisForkVersion f).isSome := by
  unfold activeIdentitySources at h
  unfold setGenesisForkVersion
  by_cases hc : f.useCustomGenesisForkVersion = "" <;>
    by_cases hm : f.useGenesisForkVersionMainnet <;>
      by_cases hk : f.useGenesisForkVersionKiln <;>
        by_cases hr : f.useGenesisForkVersionRopsten <;>
          by_cases hs : f.useGenesisForkVersionSepolia <;>
            simp_all

/-! ### Claim theorems -/

/-- C2: whenever the custom genesis-fork-version override is non-empty and a
named network flag is also set, the resolved network identity recorded by the
run is the custom override's value, not the named network's constant. -/
theorem c2_custom_override_precedence (f : Flags)
    (hc : f.useCustomGenesisForkVersion ≠ "")
    (hn : f.useGenesisForkVersionMainnet = true ∨ f.useGenesisForkVersionKiln = true
      ∨ f.useGenesisForkVersionRopsten = true ∨ f.useGenesisForkVersionSepolia = true) :
    setGenesisForkVersion f = some f.useCustomGenesisForkVersion
    ∧ ∀ w : World, (runAPI f w).resolvedIdentity = some f.useCustomGenesisForkVersion := by
  have h1 : setGenesisForkVersion f = some f.useCustomGenesisForkVersion := by
    unfold setGenesisForkVersion
    simp [hc]
  exact ⟨h1, fun w => (runAPI_resolved f w _ h1).1⟩

/-- Witness for C2 at a concrete input: custom override together with the
mainnet flag resolves to the override. -/
theorem c2_custom_override_precedence_witness :
    setGenesisForkVersion envPlusMainnetFlags = some "0x13371337"
    ∧ (runAPI envPlusMainnetFlags allOkWorld).resolvedIdentity = some "0x13371337" := by
  have h := c2_custom_override_precedence envPlusMainnetFlags (by decide) (Or.inl rfl)
  exact ⟨h.1, h.2 allOkWorld⟩

/-- C3: with no network-identity source active, the run makes no external
call at all (no beacon contact, no cache connection) and exits fatally with
the missing-genesis-fork-version message. -/
theorem c3_no_identity_fatal_before_any_call (f : Flags) (w : World)
    (hc : f.useCustomGenesisForkVersion = "")
    (hm : f.useGenesisForkVersionMainnet = false)
    (hk : f.useGenesisForkVersionKiln = false)
    (hr : f.useGenesisForkVersionRopsten = false)
    (hs : f.useGenesisForkVersionSepolia = false) :
    runAPI f w =
      { trace := [], resolvedIdentity := none, optsBuilt := none,
        outcome := Outcome.fatalExit fatalNoGenesisForkVersion } := by
  unfold runAPI setGenesisForkVersion
  simp [hc, hm, hk, hr, hs]

/-- Witness for C3 at a concrete input. -/
theorem c3_no_identity_fatal_before_any_call_witness :
    runAPI noIdentityFlags allOkWorld =
      { trace := [], resolvedIdentity := none, optsBuilt := none,
        outcome := Outcome.fatalExit fatalNoGenesisForkVersion } :=
  c3_no_identity_fatal_before_any_call noIdentityFlags allOkWorld rfl rfl rfl rfl rfl

/-- C4: when the beacon sync-status query errors, the run exits fatally right
there: the trace holds exactly one sync-status query and no Redis connection
attempt. -/
theorem c4_beacon_error_no_redis (f : Flags) (w : World) (g e : String)
    (hid : setGenesisForkVersion f = some g)
    (hs : w.syncStatusResult = Except.error e) :
    (runAPI f w).trace = [Event.beaconSyncStatus]
    ∧ (runAPI f w).outcome = Outcome.fatalExit "Beacon node is syncing"
    ∧ Event.redisConnect ∉ (runAPI f w).trace
    ∧ (runAPI f w).trace.count Event.beaconSyncStatus = 1 := by
  have hrun : runAPI f w =
      { trace := [Event.beaconSyncStatus], resolvedIdentity := some g,
        optsBuilt := none, outcome := Outcome.fatalExit "Beacon node is syncing" } := by
    unfold runAPI
    rw [hid, hs]
  rw [hrun]
  exact ⟨rfl, rfl, by simp, rfl⟩

/-- Witness for C4 at a concrete input. -/
theorem c4_beacon_error_no_redis_witness :
    (runAPI mainnetFlags syncFailWorld).trace = [Event.beaconSyncStatus]
    ∧ (runAPI mainnetFlags syncFailWorld).outcome = Outcome.fatalExit "Beacon node is syncing"
    ∧ Event.redisConnect ∉ (runAPI mainnetFlags syncFailWorld).trace
    ∧ (runAPI mainnetFlags syncFailWorld).trace.count Event.beaconSyncStatus = 1 :=
  c4_beacon_error_no_redis mainnetFlags syncFailWorld GenesisForkVersionMainnet
    "still syncing" rfl rfl

/-- C5: when the secret-key hex fails to decode (with beacon and Redis having
succeeded), the run exits fatally at the key-loading stage: the trace shows
exactly the beacon query and the Redis connection, no service-construction
attempt happens and no options value is built. -/
theorem c5_bad_hex_no_service_construction (f : Flags) (w : World) (g e : String)
    (hid : setGenesisForkVersion f = some g)
    (hs : w.syncStatusResult = Except.ok ())
    (hr : w.redisResult = Except.ok ())
    (hd : hexutilDecode f.secretKey = Except.error e) :
    (runAPI f w).trace = [Event.beaconSyncStatus, Event.redisConnect]
    ∧ (runAPI f w).outcome = Outcome.fatalExit "incorrect secret key provided"
    ∧ Event.newRelayAPI ∉ (runAPI f w).trace
    ∧ (runAPI f w).optsBuilt = none := by
  have hrun : runAPI f w =
      { trace := [Event.beaconSyncStatus, Event.redisConnect],
        resolvedIdentity := some g, optsBuilt := none,
        outcome := Outcome.fatalExit "incorrect secret key provided" } := by
    unfold runAPI
    rw [hid, hs, hr, hd]
  rw [hrun]
  exact ⟨rfl, rfl, by simp, rfl⟩

/-- Witness for C5 at a concrete input. -/
theorem c5_bad_hex_no_service_construction_witness :
    (runAPI badHexFlags allOkWorld).trace = [Event.beaconSyncStatus, Event.redisConnect]
    ∧ (runAPI badHexFlags allOkWorld).outcome = Outcome.fatalExit "incorrect secret key provided"
    ∧ Event.newRelayAPI ∉ (runAPI badHexFlags allOkWorld).trace
    ∧ (runAPI badHexFlags allOkWorld).optsBuilt = none :=
  c5_bad_hex_no_service_construction badHexFlags allOkWorld GenesisForkVersionMainnet
    errMissing0x rfl rfl rfl rfl

/-- C9: the empty secret key (the flag default) is not rejected before the
run body: the run proceeds, the beacon query and the Redis connection happen
and succeed, and only then does the run exit fatally at the hex-decoding
stage, because decoding the empty string errors with the empty-string error. -/
theorem c9_empty_key_fails_at_decode (f : Flags) (w : World) (g : String)
    (hkey : f.secretKey = "")
    (hid : setGenesisForkVersion f = some g)
    (hs : w.syncStatusResult = Except.ok ())
    (hr : w.redisResult = Except.ok ()) :
    hexutilDecode f.secretKey = Except.error errEmptyString
    ∧ (runAPI f w).trace = [Event.beaconSyncStatus, Event.redisConnect]
    ∧ (runAPI f w).outcome = Outcome.fatalExit "incorrect secret key provided" := by
  have hd : hexutilDecode f.secretKey = Except.error errEmptyString := by
    rw [hkey]
    decide
  have hrun : runAPI f w =
      { trace := [Event.beaconSyncStatus, Event.redisConnect],
        resolvedIdentity := some g, optsBuilt := none,
        outcome := Outcome.fatalExit "incorrect secret key provided" } := by
    unfold runAPI
    rw [hid, hs, hr, hd]
  exact ⟨hd, by rw [hrun], by rw [hrun]⟩

/-- Witness for C9 at a concrete input. -/
theorem c9_empty_key_fails_at_decode_witness :
    hexutilDecode emptyKeyFlags.secretKey = Except.error errEmptyString
    ∧ (runAPI emptyKeyFlags allOkWorld).trace = [Event.beaconSyncStatus, Event.redisConnect]
    ∧ (runAPI emptyKeyFlags allOkWorld).outcome
        = Outcome.fatalExit "incorrect secret key provided" :=
  c9_empty_key_fails_at_decode emptyKeyFlags allOkWorld GenesisForkVersionMainnet
    rfl rfl rfl rfl

/-- C10: a non-empty custom override is recorded verbatim as the resolved
network identity, with no validation of its content. -/
theorem c10_custom_override_verbatim (f : Flags) (w : World)
    (hc : f.useCustomGenesisForkVersion ≠ "") :
    setGenesisForkVersion f = some f.useCustomGenesisForkVersion
    ∧ (runAPI f w).resolvedIdentity = some f.useCustomGenesisForkVersion := by
  have h1 : setGenesisForkVersion f = some f.useCustomGenesisForkVersion := by
    unfold setGenesisForkVersion
    simp [hc]
  exact ⟨h1, (runAPI_resolved f w _ h1).1⟩

/-- Witness for C10 at a concrete input: an override that is not valid hex is
still recorded exactly. -/
theorem c10_custom_override_verbatim_witness :
    setGenesisForkVersion nonHexOverrideFlags = some "not-hex!!"
    ∧ (runAPI nonHexOverrideFlags allOkWorld).resolvedIdentity = some "not-hex!!" :=
  c10_custom_override_verbatim nonHexOverrideFlags allOkWorld (by decide)

/-- C1 counterexample: with the custom override supplied through the
environment (so that the resolved flag state carries it as a default) and the
mainnet flag set, more than one network-identity source is active after
resolution, yet startup does not fail before network I-O: the beacon client
is contacted and the run even reaches the serving state. -/
theorem c1_counterexample :
    1 < activeIdentitySources envPlusMainnetFlags
    ∧ Event.beaconSyncStatus ∈ (runAPI envPlusMainnetFlags allOkWorld).trace
    ∧ (runAPI envPlusMainnetFlags allOkWorld).outcome = Outcome.serving := by
  decide

/-- C1 amended: when more than one network-identity source is active after
resolution, startup does not fail at the identity stage; a single identity is
resolved by precedence (custom override first, then the named networks in
declared order) and the run proceeds to contact the beacon client. -/
theorem c1_amended_multiple_sources_proceed (f : Flags) (w : World)
    (h : 1 < activeIdentitySources f) :
    (runAPI f w).resolvedIdentity.isSome
    ∧ Event.beaconSyncStatus ∈ (runAPI f w).trace := by
  have h1 : (setGenesisForkVersion f).isSome :=
    setGenesisForkVersion_isSome_of_active f (by omega)
  obtain ⟨g, hg⟩ := Option.isSome_iff_exists.mp h1
  have h2 := runAPI_resolved f w g hg
  refine ⟨?_, h2.2⟩
  rw [h2.1]
  rfl

/-- Witness for the amended C1 at a concrete input. -/
theorem c1_amended_multiple_sources_proceed_witness :
    (runAPI envPlusMainnetFlags serveNilWorld).resolvedIdentity.isSome
    ∧ Event.beaconSyncStatus ∈ (runAPI envPlusMainnetFlags serveNilWorld).trace :=
  c1_amended_multiple_sources_proceed envPlusMainnetFlags serveNilWorld (by decide)

/-- C6: key loading has exactly the two failure points, each fatal with its
own distinct message: a run whose secret-key hex fails to decode exits with
the hex-decoding message and never calls the BLS validity check, and a run
whose bytes decode but are rejected by the BLS library exits with the other
message after calling the BLS check. -/
theorem c6_two_distinct_key_failures (f : Flags) (w : World) (g : String)
    (hid : setGenesisForkVersion f = some g)
    (hs : w.syncStatusResult = Except.ok ())
    (hr : w.redisResult = Except.ok ()) :
    ("incorrect secret key provided" ≠ "incorrect builder API secret key provided")
    ∧ (∀ e, hexutilDecode f.secretKey = Except.error e →
        (runAPI f w).outcome = Outcome.fatalExit "incorrect secret key provided"
        ∧ Event.blsSecretKeyFromBytes ∉ (runAPI f w).trace)
    ∧ (∀ bs e2, hexutilDecode f.secretKey = Except.ok bs →
        w.blsKeyResult = Except.error e2 →
        (runAPI f w).outcome = Outcome.fatalExit "incorrect builder API secret key provided"
        ∧ Event.blsSecretKeyFromBytes ∈ (runAPI f w).trace) := by
  refine ⟨by decide, ?_, ?_⟩
  · intro e hd
    have hrun : runAPI f w =
        { trace := [Event.beaconSyncStatus, Event.redisConnect],
          resolvedIdentity := some g, optsBuilt := none,
          outcome := Outcome.fatalExit "incorrect secret key provided" } := by
      unfold runAPI
      rw [hid, hs, hr, hd]
    rw [hrun]
    exact ⟨rfl, by simp⟩
  · intro bs e2 hd hb
    have hrun : runAPI f w =
        { trace := [Event.beaconSyncStatus, Event.redisConnect,
            Event.blsSecretKeyFromBytes],
          resolvedIdentity := some g, optsBuilt := none,
          outcome := Outcome.fatalExit "incorrect builder API secret key provided" } := by
      unfold runAPI
      rw [hid, hs, hr, hd, hb]
    rw [hrun]
    exact ⟨rfl, by simp⟩

/-- Witness for C6 at concrete inputs: one run that fails at hex decoding
without reaching the BLS check, one run that fails at the BLS check. -/
theorem c6_two_distinct_key_failures_witness :
    (runAPI badHexFlags blsFailWorld).outcome
      = Outcome.fatalExit "incorrect secret key provided"
    ∧ Event.blsSecretKeyFromBytes ∉ (runAPI badHexFlags blsFailWorld).trace
    ∧ (runAPI mainnetFlags blsFailWorld).outcome
      = Outcome.fatalExit "incorrect builder API secret key provided"
    ∧ Event.blsSecretKeyFromBytes ∈ (runAPI mainnetFlags blsFailWorld).trace := by
  have h1 := (c6_two_distinct_key_failures badHexFlags blsFailWorld
    GenesisForkVersionMainnet rfl rfl rfl).2.1 errMissing0x rfl
  have h2 := (c6_two_distinct_key_failures mainnetFlags blsFailWorld
    GenesisForkVersionMainnet rfl rfl rfl).2.2 [1] "invalid scalar" rfl rfl
  exact ⟨h1.1, h1.2, h2.1, h2.2⟩

/-- C7 counterexample: the wait-duration input of ten trillion milliseconds
(a legal `int64` flag value) overflows the `int64` nanosecond product, so the
value placed into the relay service options is not ten trillion milliseconds
but the wrapped negative duration. -/
theorem c7_counterexample :
    (runAPI overflowWaitFlags allOkWorld).optsBuilt.map RelayAPIOpts.GetHeaderWaitTime
      = some (-8446744073709551616)
    ∧ ((-8446744073709551616 : Int) ≠ 10000000000000 * 1000000) := by
  refine ⟨by decide, by decide⟩

/-- C7 amended: for every wait-duration input whose value in nanoseconds
stays inside the `int64` range (in particular the default 500), the
wait-duration value placed into the relay service options equals that many
milliseconds, expressed in nanoseconds. -/
theorem c7_amended_wait_roundtrip (n : Int) (f : Flags) (w : World)
    (hn : f.getHeaderWaitTimeMs = n)
    (hlo : -(2 ^ 63) ≤ n * 1000000) (hhi : n * 1000000 < 2 ^ 63) :
    ∀ o : RelayAPIOpts, (runAPI f w).optsBuilt = some o →
      o.GetHeaderWaitTime = n * 1000000 := by
  intro o h
  have h1 := runAPI_optsBuilt_wait f w o h
  rw [h1, hn]
  unfold goDurationMsToNs timeMillisecond
  exact int64Wrap_id _ hlo hhi

/-- Witness for the amended C7 at the default input 500. -/
theorem c7_amended_wait_roundtrip_witness :
    (runAPI mainnetFlags allOkWorld).optsBuilt.map RelayAPIOpts.GetHeaderWaitTime
      = some (500 * 1000000) := by
  rcases hopts : (runAPI mainnetFlags allOkWorld).optsBuilt with _ | o
  · exact absurd hopts (by decide)
  · show some o.GetHeaderWaitTime = some (500 * 1000000)
    rw [c7_amended_wait_roundtrip 500 mainnetFlags allOkWorld rfl (by decide)
      (by decide) o hopts]

/-- C8: whenever the blocking serve call returns, with any value — an error
or nil — the run ends in a fatal exit: there is no non-fatal path out of the
serving state. -/
theorem c8_serve_return_always_fatal (f : Flags) (w : World) (r : Option String)
    (hserve : w.startServerBehavior = ServeBehavior.returns r)
    (hin : Event.startServer ∈ (runAPI f w).trace) :
    (runAPI f w).outcome = Outcome.fatalExit (serveExitMsg r) := by
  revert hin
  unfold runAPI
  rcases setGenesisForkVersion f with _ | g
  · intro hin
    simp at hin
  · rcases w.syncStatusResult with e | u
    · intro hin
      simp at hin
    · rcases w.redisResult with e | u2
      · intro hin
        simp at hin
      · rcases hexutilDecode f.secretKey with e | bs
        · intro hin
          simp at hin
        · rcases w.blsKeyResult with e | u3
          · intro hin
            simp at hin
          · rcases w.newRelayAPIResult with e | u4
            · intro hin
              simp at hin
            · intro hin
              rw [hserve]

/-- Witness for C8 at a concrete input where the serve loop returns nil. -/
theorem c8_serve_return_always_fatal_witness :
    (runAPI mainnetFlags serveNilWorld).outcome = Outcome.fatalExit "<nil>" :=
  c8_serve_return_always_fatal mainnetFlags serveNilWorld none rfl (by decide)
